import Mathlib

/-!
Verification of the fc2ppvdb scraper (`scrapers/fc2ppvdb/fc2ppvdb.py`).

The script is shallowly embedded: Python strings become `String`
(viewed as `List Char` where recursion is needed), the two regular
expressions of the source are embedded by their search semantics,
the session-cookie file and the two network responses become an
explicit environment record, and the control flow of `send_request`
and the `__main__` block becomes a pure function producing a summary
of the run (exit code, file state, counts of reads / writes / network
calls, emitted scene, logged error messages).

Modelling notes, fixed once here:
* `\d` in the source's patterns is modelled as an ASCII digit
  (`Char.isDigit`); Python's `re` would also accept other Unicode
  decimal digits, which no claim exercises.
* JSON values are modelled with string, object and array
  constructors, the only shapes the upstream `ArticleRecord`
  (spec section 3) uses; interpolating a non-string value into an
  f-string is abstracted by `pyFormat` placeholders, and iterating or
  subscripting a value of the wrong shape is modelled as the uncaught
  Python fault it would raise (`PyErr.fault`).
* An `unreadable` cookie file models a file that exists but cannot be
  opened for reading or writing (e.g. no permissions); `open` on it
  raises `OSError` in both modes.
-/

/-- `URL_SEARCH_PATTERN = r".+/articles/(\d{5,}).*"`: the literal part
of the pattern, as a character list. -/
def ARTICLES_MARKER : List Char := "/articles/".data

/-- `BASE_QUERY_URL = "https://fc2ppvdb.com"`. -/
def BASE_QUERY_URL : String := "https://fc2ppvdb.com"

/-- Match of `URL_SEARCH_PATTERN` anchored at the current position of
the backtracking scan: succeeds when the text starts with
`/articles/` followed by at least five digits, returning the maximal
digit run (the greedy group `(\d{5,})`). -/
def urlMatchHere (l : List Char) : Option (List Char) :=
  if l.take 10 = ARTICLES_MARKER then
    let run := (l.drop 10).takeWhile Char.isDigit
    if 5 ≤ run.length then some run else none
  else none

/-- The greedy `.+` of `URL_SEARCH_PATTERN` backtracks from the end of
the string, so of all positions where `/articles/` plus five digits
match, the rightmost wins: scan all nonempty suffixes, latest first. -/
def urlFindLast : List Char → Option (List Char)
  | [] => none
  | c :: rest =>
    match urlFindLast rest with
    | some r => some r
    | none => urlMatchHere (c :: rest)

/-- `re.search(URL_SEARCH_PATTERN, s)` returning group 1.  The leading
`.+` must consume at least one character, so only occurrences of
`/articles/` at position ≥ 1 can match. -/
def urlSearch (s : String) : Option String :=
  match s.data with
  | [] => none
  | _ :: rest => (urlFindLast rest).map String.mk

/-- Match of `CODE_SEARCH_PATTERN = r".*?(\d{5,}).*"` anchored at the
current position: at least five digits here, group is the maximal
digit run. -/
def codeMatchHere (l : List Char) : Option (List Char) :=
  let run := l.takeWhile Char.isDigit
  if 5 ≤ run.length then some run else none

/-- The lazy `.*?` of `CODE_SEARCH_PATTERN` grows from the left, so
the leftmost position where five digits start wins. -/
def codeFindFirst : List Char → Option (List Char)
  | [] => none
  | c :: rest =>
    match codeMatchHere (c :: rest) with
    | some r => some r
    | none => codeFindFirst rest

/-- `re.search(CODE_SEARCH_PATTERN, s)` returning group 1. -/
def codeSearch (s : String) : Option String :=
  (codeFindFirst s.data).map String.mk

/-- One entry of the fragment's `files` list: an object with a `path`
string. -/
structure FileEntry where
  path : String
deriving DecidableEq

/-- The host-supplied request fragment: every field optional
(`fragment.get(...)`), `files` defaulting to the empty list. -/
structure Fragment where
  url : Option String
  code : Option String
  title : Option String
  files : List FileEntry
deriving DecidableEq

/-- Python truthiness of an optional string, as used by
`if url := fragment.get("url")`: an absent field and an empty string
are both falsy. -/
def truthy : Option String → Option String
  | none => none
  | some s => if s = "" then none else some s

/-- The `for file in fragment.get("files", [])` loop of `extract_id`:
first path whose `CODE_SEARCH_PATTERN` search succeeds. -/
def firstFileMatch : List FileEntry → Option String
  | [] => none
  | f :: rest =>
    match codeSearch f.path with
    | some r => some r
    | none => firstFileMatch rest

/-- `extract_id(fragment)`: url, then code, then title, then the file
paths, each source skipped when absent / empty / unmatched. -/
def extract_id (f : Fragment) : Option String :=
  match (truthy f.url).bind urlSearch with
  | some r => some r
  | none =>
    match (truthy f.code).bind codeSearch with
    | some r => some r
    | none =>
      match (truthy f.title).bind codeSearch with
      | some r => some r
      | none => firstFileMatch f.files

example : urlSearch "https://fc2ppvdb.com/articles/1234567" = some "1234567" := by decide
example : urlSearch "/articles/12345" = none := by decide
example : urlSearch "x/articles/11111b/articles/22222" = some "22222" := by decide
example : urlSearch "x/articles/1234" = none := by decide
example : codeSearch "FC2-PPV-4567890 rest" = some "4567890" := by decide
example : codeSearch "1234a123456" = some "123456" := by decide
example : extract_id ⟨some "x/articles/12345", some "99999", none, []⟩ = some "12345" := by decide
example : extract_id ⟨some "no-digits", none, none, [⟨"a1234"⟩, ⟨"b55555c"⟩]⟩ = some "55555" := by decide

/-! ### Lemmas about the two embedded regex searches -/

theorem urlFindLast_append_of_some {b r : List Char} (a : List Char)
    (h : urlFindLast b = some r) : urlFindLast (a ++ b) = some r := by
  induction a with
  | nil => simpa using h
  | cons c a ih => simp only [List.cons_append, urlFindLast, List.append_eq, ih]

theorem urlFindLast_eq_none {l : List Char}
    (h : ∀ j < l.length, urlMatchHere (l.drop j) = none) : urlFindLast l = none := by
  induction l with
  | nil => rfl
  | cons c rest ih =>
    have h0 : urlMatchHere (c :: rest) = none := by simpa using h 0 (by simp)
    have hr : urlFindLast rest = none := by
      refine ih fun j hj => ?_
      simpa [List.drop_succ_cons] using h (j + 1) (by simpa using Nat.succ_lt_succ hj)
    simp only [urlFindLast, hr, h0]

theorem urlMatchHere_marker {d rest : List Char}
    (hd : ∀ c ∈ d, c.isDigit = true) (h5 : 5 ≤ d.length)
    (hrest : rest.takeWhile Char.isDigit = []) :
    urlMatchHere (ARTICLES_MARKER ++ (d ++ rest)) = some d := by
  have hlen : ARTICLES_MARKER.length = 10 := rfl
  have htake : (ARTICLES_MARKER ++ (d ++ rest)).take 10 = ARTICLES_MARKER := by
    rw [← hlen]; exact List.take_left _ _
  have hdrop : (ARTICLES_MARKER ++ (d ++ rest)).drop 10 = d ++ rest := by
    rw [← hlen]; exact List.drop_left _ _
  have hrun : (d ++ rest).takeWhile Char.isDigit = d := by
    rw [List.takeWhile_append_of_pos hd, hrest, List.append_nil]
  simp only [urlMatchHere, htake, hdrop, hrun]
  simp [h5]

theorem urlSearch_empty : urlSearch "" = none := rfl

theorem codeSearch_empty : codeSearch "" = none := rfl

theorem truthy_bind_urlSearch (o : Option String) :
    (truthy o).bind urlSearch = o.bind urlSearch := by
  cases o with
  | none => rfl
  | some s =>
    by_cases h : s = ""
    · subst h; simp [truthy, urlSearch_empty]
    · simp [truthy, h]

theorem truthy_bind_codeSearch (o : Option String) :
    (truthy o).bind codeSearch = o.bind codeSearch := by
  cases o with
  | none => rfl
  | some s =>
    by_cases h : s = ""
    · subst h; simp [truthy, codeSearch_empty]
    · simp [truthy, h]

/-- `extract_id` rewritten through the truthiness lemmas: the empty
string is skipped by truthiness, but neither search matches it
anyway, so the cascade only depends on the four search results. -/
theorem extract_id_eq (f : Fragment) :
    extract_id f =
      match f.url.bind urlSearch with
      | some r => some r
      | none =>
        match f.code.bind codeSearch with
        | some r => some r
        | none =>
          match f.title.bind codeSearch with
          | some r => some r
          | none => firstFileMatch f.files := by
  simp only [extract_id, truthy_bind_urlSearch, truthy_bind_codeSearch]

/-- Claim C3 (amended): for every fragment whose url contains an
occurrence of `/articles/` that is preceded by at least one character
and followed by a run of at least 5 digits, with no later occurrence
of the `/articles/<5+ digits>` pattern in the url, `extract_id`
returns exactly that (maximal) digit run, regardless of which other
fragment fields are present or what they contain. -/
theorem extract_id_url_articles (f : Fragment) (u : String) (p : Char)
    (a d rest : List Char)
    (hu : f.url = some u)
    (hdata : u.data = p :: (a ++ (ARTICLES_MARKER ++ (d ++ rest))))
    (hd : ∀ c ∈ d, c.isDigit = true) (h5 : 5 ≤ d.length)
    (hrest : rest.takeWhile Char.isDigit = [])
    (hlast : ∀ j < (ARTICLES_MARKER ++ (d ++ rest)).length,
      urlMatchHere ((ARTICLES_MARKER ++ (d ++ rest)).drop (j + 1)) = none) :
    extract_id f = some (String.mk d) := by
  have hne : u ≠ "" := by
    intro h
    rw [h] at hdata
    exact List.noConfusion hdata
  have hL : ARTICLES_MARKER ++ (d ++ rest) = '/' :: ("articles/".data ++ (d ++ rest)) := rfl
  have htail : urlFindLast ("articles/".data ++ (d ++ rest)) = none := by
    refine urlFindLast_eq_none fun j hj => ?_
    have hj' : j < (ARTICLES_MARKER ++ (d ++ rest)).length := by
      rw [hL, List.length_cons]
      exact Nat.lt_succ_of_lt hj
    have := hlast j hj'
    rw [hL, List.drop_succ_cons] at this
    exact this
  have hfind : urlFindLast (ARTICLES_MARKER ++ (d ++ rest)) = some d := by
    have step : urlFindLast (ARTICLES_MARKER ++ (d ++ rest)) =
        match urlFindLast ("articles/".data ++ (d ++ rest)) with
        | some r => some r
        | none => urlMatchHere (ARTICLES_MARKER ++ (d ++ rest)) := rfl
    rw [step, htail]
    exact urlMatchHere_marker hd h5 hrest
  have hurl : urlSearch u = some (String.mk d) := by
    simp only [urlSearch, hdata]
    rw [urlFindLast_append_of_some a hfind]
    rfl
  simp [extract_id, hu, truthy, hne, hurl]

/-- Witness for C3's amended theorem at a realistic article url. -/
theorem extract_id_url_articles_witness :
    extract_id ⟨some "https://fc2ppvdb.com/articles/1234567", none, none, []⟩ =
      some (String.mk "1234567".data) :=
  extract_id_url_articles _ "https://fc2ppvdb.com/articles/1234567" 'h'
    "ttps://fc2ppvdb.com".data "1234567".data [] rfl (by decide) (by decide)
    (by decide) rfl (by decide)

/-- Counterexample to Claim C3 as stated: the url `/articles/12345`
contains `/articles/` followed by five digits, yet `extract_id`
returns nothing, because the pattern's leading `.+` demands at least
one character before `/articles/`. -/
theorem extract_id_url_articles_cex :
    "/articles/12345" = "" ++ "/articles/" ++ "12345" ∧
    extract_id ⟨some "/articles/12345", none, none, []⟩ ≠ some "12345" := by
  constructor
  · rfl
  · decide

/-- Claim C4: whenever both `url` and `code` are present and each
contains a digit run extractable by its respective pattern, the run
from the url wins. -/
theorem extract_id_url_over_code (f : Fragment) (u c ru rc : String)
    (hu : f.url = some u) (hc : f.code = some c)
    (hru : urlSearch u = some ru) (hrc : codeSearch c = some rc) :
    extract_id f = some ru := by
  have hne : u ≠ "" := by
    intro h
    rw [h, urlSearch_empty] at hru
    exact Option.noConfusion hru
  simp [extract_id, hu, truthy, hne, hru]

/-- Witness for C4: both sources match, result comes from the url. -/
theorem extract_id_url_over_code_witness :
    extract_id ⟨some "x/articles/11111", some "22222", none, []⟩ = some "11111" :=
  extract_id_url_over_code _ "x/articles/11111" "22222" "11111" "22222"
    rfl rfl (by decide) (by decide)

/-- Claim C10: a present url (code, title) that yields no match does
not terminate extraction; the remaining sources are tried in order,
first success wins, and the result is absent exactly when every
source fails. -/
theorem extract_id_fallthrough (f : Fragment) :
    (∀ r, f.url.bind urlSearch = none → f.code.bind codeSearch = some r →
      extract_id f = some r) ∧
    (∀ r, f.url.bind urlSearch = none → f.code.bind codeSearch = none →
      f.title.bind codeSearch = some r → extract_id f = some r) ∧
    (f.url.bind urlSearch = none → f.code.bind codeSearch = none →
      f.title.bind codeSearch = none → extract_id f = firstFileMatch f.files) ∧
    (extract_id f = none ↔
      (f.url.bind urlSearch = none ∧ f.code.bind codeSearch = none ∧
        f.title.bind codeSearch = none ∧ firstFileMatch f.files = none)) := by
  refine ⟨?_, ?_, ?_, ?_⟩
  · intro r h1 h2
    rw [extract_id_eq, h1, h2]
  · intro r h1 h2 h3
    rw [extract_id_eq, h1, h2, h3]
  · intro h1 h2 h3
    rw [extract_id_eq, h1, h2, h3]
  · rw [extract_id_eq]
    rcases h1 : f.url.bind urlSearch with _ | r1 <;>
      rcases h2 : f.code.bind codeSearch with _ | r2 <;>
        rcases h3 : f.title.bind codeSearch with _ | r3 <;>
          simp

/-- Witness for C10: url present but unmatched, code supplies the id. -/
theorem extract_id_fallthrough_witness :
    extract_id ⟨some "no-digits-here", some "ab12345cd", none, []⟩ = some "12345" :=
  (extract_id_fallthrough ⟨some "no-digits-here", some "ab12345cd", none, []⟩).1
    "12345" (by decide) (by decide)

/-! ### Session store, JSON mapping and the request pipeline -/

/-- State of the cookie storage file.  `unreadable` is a file that
exists but cannot be opened in either mode (its unknown content is
carried so that the final file state can be stated). -/
inductive CookieFile where
  | absent
  | unreadable (content : String)
  | present (content : String)
deriving DecidableEq

/-- The session's cookie jar (`scraper.cookies`), keyed by cookie
name; the head of the list is the most recent setting. -/
def Jar : Type := List (String × String)

/-- `scraper.cookies.set(k, v)`. -/
def setJar (jar : Jar) (k v : String) : Jar := (k, v) :: jar

/-- `scraper.cookies.get_dict().get(k)`: `none` when the cookie is
absent (Python returns `None` here without raising). -/
def getJar (jar : Jar) (k : String) : Option String :=
  List.lookup k jar

/-- Cookies set on the session by an HTTP response. -/
def applyCookies (jar : Jar) : List (String × String) → Jar
  | [] => jar
  | (k, v) :: rest => applyCookies (setJar jar k v) rest

/-- `read_cookie()`: returns whether a non-empty cookie was loaded,
plus the updated jar.  A missing or unopenable file raises `OSError`,
caught and turned into `False`; an empty file returns `False` without
touching the jar. -/
def read_cookie (file : CookieFile) (jar : Jar) : Bool × Jar :=
  match file with
  | .absent => (false, jar)
  | .unreadable _ => (false, jar)
  | .present c =>
    if c = "" then (false, jar) else (true, setJar jar "fc2ppvdb_session" c)

/-- Result of one `write_cookie()` call: the file state it leaves
behind, whether the call died with an uncaught exception, and the
error messages it logged. -/
structure WriteResult where
  file : CookieFile
  crashed : Bool
  errors : List String
deriving DecidableEq

/-- `write_cookie()`.  `get_dict().get("fc2ppvdb_session")` returns
`None` (no exception) when the cookie is missing, so the bare
`except` branch that would substitute `""` never runs; `open(...,"w")`
first truncates the file, then `f.write(None)` raises an uncaught
`TypeError`.  An unopenable file raises `OSError`, which is caught
and logged. -/
def write_cookie (jar : Jar) (file : CookieFile) : WriteResult :=
  match file with
  | .unreadable c =>
    { file := .unreadable c, crashed := false,
      errors := ["Failed to write cookie to file"] }
  | _ =>
    match getJar jar "fc2ppvdb_session" with
    | some c => { file := .present c, crashed := false, errors := [] }
    | none => { file := .present "", crashed := true, errors := [] }

/-- Uncaught-vs-caught classification of the Python exceptions the
mapping step can raise: `KeyError` (caught by `send_request`) versus
any other fault such as `TypeError` / `AttributeError` (uncaught). -/
inductive PyErr where
  | keyError (key : String)
  | fault
deriving DecidableEq

/-- JSON values of the shapes the upstream `ArticleRecord` uses. -/
inductive Json where
  | str (s : String)
  | obj (fields : List (String × Json))
  | arr (items : List Json)

/-- `value[k]` on a JSON value: `KeyError` when the key is missing
from an object, an uncaught fault when the value is not an object. -/
def getKey (j : Json) (k : String) : Except PyErr Json :=
  match j with
  | .obj fields =>
    match fields.lookup k with
    | some v => .ok v
    | none => .error (.keyError k)
  | _ => .error .fault

/-- A JSON value where the source requires a string (`.startswith`);
anything else would raise an uncaught `AttributeError`. -/
def asStr : Json → Except PyErr String
  | .str s => .ok s
  | _ => .error .fault

/-- A JSON value the source iterates over; a non-list would fault on
its first element. -/
def asArr : Json → Except PyErr (List Json)
  | .arr items => .ok items
  | _ => .error .fault

/-- Interpolation of a JSON value into an f-string.  A non-string
value would be rendered through its Python repr, which no claim
exercises; it is abstracted by a placeholder. -/
def pyFormat : Json → String
  | .str s => s
  | .obj _ => "<object>"
  | .arr _ => "<list>"

/-- `str.startswith(pre)`. -/
def pyStartsWith (s pre : String) : Bool :=
  pre.data.isPrefixOf s.data

/-- Output record `ScrapedTag`. -/
structure ScrapedTag where
  name : Json

/-- Output record `ScrapedPerformer`. -/
structure ScrapedPerformer where
  name : Json
  urls : List String

/-- Output record `ScrapedStudio`. -/
structure ScrapedStudio where
  name : Json
  url : String

/-- Output record `ScrapedScene`. -/
structure ScrapedScene where
  title : Json
  date : Json
  tags : List ScrapedTag
  performers : List ScrapedPerformer
  studio : ScrapedStudio
  director : Json
  code : String
  image : String
  url : String

/-- The `for article_tag in article["tags"]` loop. -/
def mapTags : List Json → Except PyErr (List ScrapedTag)
  | [] => .ok []
  | item :: rest => do
    let n ← getKey item "name"
    let tl ← mapTags rest
    .ok ({ name := n } :: tl)

/-- The `for article_performer in article["actresses"]` loop; the
keyword arguments evaluate `name` before `id`. -/
def mapPerformers : List Json → Except PyErr (List ScrapedPerformer)
  | [] => .ok []
  | item :: rest => do
    let n ← getKey item "name"
    let i ← getKey item "id"
    let tl ← mapPerformers rest
    .ok ({ name := n,
           urls := [BASE_QUERY_URL ++ "/actresses/" ++ pyFormat i] } :: tl)

/-- `export_scene(result)`: key accesses in the evaluation order of
the source (tags loop, actresses loop, image normalization, then the
`ScrapedScene(...)` keyword arguments left to right). -/
def export_scene (result : Json) : Except PyErr ScrapedScene := do
  let article ← getKey result "article"
  let tagsJson ← getKey article "tags"
  let tagItems ← asArr tagsJson
  let tags ← mapTags tagItems
  let actrJson ← getKey article "actresses"
  let actrItems ← asArr actrJson
  let performers ← mapPerformers actrItems
  let imageJson ← getKey article "image_url"
  let imageRaw ← asStr imageJson
  let image_url :=
    if pyStartsWith imageRaw "https" then imageRaw else BASE_QUERY_URL ++ imageRaw
  let title ← getKey article "title"
  let date ← getKey article "release_date"
  let writer ← getKey article "writer"
  let writerName ← getKey writer "name"
  let writerSlug ← getKey writer "slug"
  let videoId ← getKey article "video_id"
  .ok { title := title, date := date, tags := tags, performers := performers,
        studio := { name := writerName,
                    url := BASE_QUERY_URL ++ "/writers/" ++ pyFormat writerSlug },
        director := writerName,
        code := "FC2-PPV-" ++ pyFormat videoId,
        image := image_url,
        url := BASE_QUERY_URL ++ "/articles/" ++ pyFormat videoId }

/-- The article HTML page response: cookies the response sets on the
session, and the `<meta name="csrf-token">` content `get_csrf` would
scrape (`none` when absent, which is fatal). -/
structure PageResp where
  setCookies : List (String × String)
  csrf : Option String

/-- The article-info API response: cookies it sets, and the result of
parsing its body as JSON (`none` models `JSONDecodeError`). -/
structure ApiResp where
  setCookies : List (String × String)
  json : Option Json

/-- The external world of one run: the cookie file and the outcome of
each of the two network requests (`none` models a
`requests.RequestException`). -/
structure Env where
  file : CookieFile
  pageResp : Option PageResp
  apiResp : Option ApiResp

/-- Observable summary of one process run: final exit code (uncaught
exceptions also exit 1), final cookie-file state, how many times the
session store was read and written, how many network requests were
issued, the scene printed on stdout, and the logged error messages. -/
structure RunOutcome where
  exitCode : Nat
  file : CookieFile
  reads : Nat
  writes : Nat
  netCalls : Nat
  scene : Option ScrapedScene
  errors : List String

/-- `send_request(video_id)` followed by the success epilogue of the
`__main__` block (printing the scene and exiting 0).  The `video_id`
only feeds the request URLs, whose responses the environment already
fixes. -/
def send_request (env : Env) : RunOutcome :=
  let r := read_cookie env.file []
  if r.1 = false then
    let w := write_cookie r.2 env.file
    { exitCode := 1, file := w.file, reads := 1, writes := 1, netCalls := 0,
      scene := none,
      errors := ["Please configure your session cookie in file fc2ppvdb/session"]
        ++ w.errors }
  else
    match env.pageResp with
    | none =>
      let w := write_cookie r.2 env.file
      { exitCode := 1, file := w.file, reads := 1, writes := 1, netCalls := 1,
        scene := none,
        errors := ["Requests article failed", "Failed to request article page"]
          ++ w.errors }
    | some page =>
      let jar2 := applyCookies r.2 page.setCookies
      match page.csrf with
      | none =>
        let w := write_cookie jar2 env.file
        { exitCode := 1, file := w.file, reads := 1, writes := 1, netCalls := 1,
          scene := none,
          errors := ["CSRF not found", "Failed to get CSRF token"] ++ w.errors }
      | some _ =>
        match env.apiResp with
        | none =>
          let w := write_cookie jar2 env.file
          { exitCode := 1, file := w.file, reads := 1, writes := 1, netCalls := 2,
            scene := none,
            errors := ["Request API failed", "Failed to request article info"]
              ++ w.errors }
        | some api =>
          let jar3 := applyCookies jar2 api.setCookies
          match api.json with
          | none =>
            let w := write_cookie jar3 env.file
            { exitCode := 1, file := w.file, reads := 1, writes := 1, netCalls := 2,
              scene := none,
              errors := ["Failed to decode article info"] ++ w.errors }
          | some result =>
            match export_scene result with
            | .error (.keyError k) =>
              let w := write_cookie jar3 env.file
              { exitCode := 1, file := w.file, reads := 1, writes := 1,
                netCalls := 2, scene := none,
                errors := ["Failed to export article info, reason: " ++ "'" ++ k
                  ++ "'" ++ " cannot be found"] ++ w.errors }
            | .error .fault =>
              { exitCode := 1, file := env.file, reads := 1, writes := 0,
                netCalls := 2, scene := none, errors := [] }
            | .ok scene =>
              let w := write_cookie jar3 env.file
              if w.crashed then
                { exitCode := 1, file := w.file, reads := 1, writes := 1,
                  netCalls := 2, scene := none, errors := w.errors }
              else
                { exitCode := 0, file := w.file, reads := 1, writes := 1,
                  netCalls := 2, scene := some scene, errors := w.errors }

/-- The `__main__` block: dispatch on the operation name, extract the
identifier, then run `send_request`. -/
def mainRun (op : String) (args : Fragment) (env : Env) : RunOutcome :=
  if op = "scene-by-fragment" ∨ op = "scene-by-url" then
    match extract_id args with
    | none =>
      { exitCode := 1, file := env.file, reads := 0, writes := 0, netCalls := 0,
        scene := none, errors := ["Failed to extract id from input"] }
    | some v =>
      if v = "" then
        { exitCode := 1, file := env.file, reads := 0, writes := 0, netCalls := 0,
          scene := none, errors := ["Failed to extract id from input"] }
      else send_request env
  else
    { exitCode := 1, file := env.file, reads := 0, writes := 0, netCalls := 0,
      scene := none, errors := ["Operation: " ++ op] }

/-! ### Helper lemmas for the pipeline -/

theorem except_bind_ok {ε α β : Type} {x : Except ε α} {f : α → Except ε β} {v : β}
    (h : x >>= f = Except.ok v) : ∃ w, x = Except.ok w ∧ f w = Except.ok v := by
  cases x with
  | error e => simp [Bind.bind, Except.bind] at h
  | ok w => exact ⟨w, rfl, by simpa [Bind.bind, Except.bind] using h⟩

theorem isPrefixOf_append_left :
    ∀ (a b s : List Char), (a ++ b).isPrefixOf s = true → a.isPrefixOf s = true
  | [], _, s, _ => by cases s <;> rfl
  | _ :: _, _, [], h => by simp [List.isPrefixOf] at h
  | x :: a, b, y :: s, h => by
    simp only [List.cons_append, List.isPrefixOf, Bool.and_eq_true] at h ⊢
    exact ⟨h.1, isPrefixOf_append_left a b s h.2⟩

theorem pyStartsWith_https {s : String} (h : pyStartsWith s "https://" = true) :
    pyStartsWith s "https" = true := by
  have hsplit : "https://".data = "https".data ++ "://".data := rfl
  unfold pyStartsWith at h ⊢
  rw [hsplit] at h
  exact isPrefixOf_append_left _ _ _ h

theorem getJar_setJar_isSome {jar : Jar} {k k' v : String}
    (h : (getJar jar k).isSome = true) :
    (getJar (setJar jar k' v) k).isSome = true := by
  unfold getJar setJar
  cases hk : k == k' with
  | true => simp [List.lookup, hk]
  | false =>
    have hstep : List.lookup k ((k', v) :: jar) = List.lookup k jar := by
      simp [List.lookup, hk]
    rw [hstep]
    exact h

theorem getJar_applyCookies_isSome {k : String} (l : List (String × String)) :
    ∀ jar : Jar, (getJar jar k).isSome = true →
      (getJar (applyCookies jar l) k).isSome = true := by
  induction l with
  | nil => exact fun jar h => h
  | cons p rest ih =>
    intro jar h
    obtain ⟨k', v⟩ := p
    exact ih _ (getJar_setJar_isSome h)

theorem read_cookie_present {c : String} (h : c ≠ "") :
    read_cookie (.present c) [] = (true, [("fc2ppvdb_session", c)]) := by
  simp [read_cookie, h, setJar]

theorem write_cookie_present_of_isSome {jar : Jar} {c : String}
    (h : (getJar jar "fc2ppvdb_session").isSome = true) :
    ∃ c', write_cookie jar (.present c) =
      { file := .present c', crashed := false, errors := [] } := by
  obtain ⟨c', hc'⟩ := Option.isSome_iff_exists.mp h
  exact ⟨c', by simp [write_cookie, hc']⟩

/-- Everything a successful `export_scene` run determines: each key
access succeeded and the scene is the record built from them. -/
theorem export_scene_ok_inv {j : Json} {scene : ScrapedScene}
    (h : export_scene j = .ok scene) :
    ∃ article tagsJson tagItems tags actrJson actrItems performers imageJson
      imageRaw title date writer writerName writerSlug videoId,
      getKey j "article" = .ok article ∧
      getKey article "tags" = .ok tagsJson ∧
      asArr tagsJson = .ok tagItems ∧
      mapTags tagItems = .ok tags ∧
      getKey article "actresses" = .ok actrJson ∧
      asArr actrJson = .ok actrItems ∧
      mapPerformers actrItems = .ok performers ∧
      getKey article "image_url" = .ok imageJson ∧
      asStr imageJson = .ok imageRaw ∧
      getKey article "title" = .ok title ∧
      getKey article "release_date" = .ok date ∧
      getKey article "writer" = .ok writer ∧
      getKey writer "name" = .ok writerName ∧
      getKey writer "slug" = .ok writerSlug ∧
      getKey article "video_id" = .ok videoId ∧
      scene = { title := title, date := date, tags := tags,
                performers := performers,
                studio := { name := writerName,
                            url := BASE_QUERY_URL ++ "/writers/"
                              ++ pyFormat writerSlug },
                director := writerName,
                code := "FC2-PPV-" ++ pyFormat videoId,
                image := if pyStartsWith imageRaw "https" then imageRaw
                  else BASE_QUERY_URL ++ imageRaw,
                url := BASE_QUERY_URL ++ "/articles/" ++ pyFormat videoId } := by
  unfold export_scene at h
  obtain ⟨article, h1, h⟩ := except_bind_ok h
  obtain ⟨tagsJson, h2, h⟩ := except_bind_ok h
  obtain ⟨tagItems, h3, h⟩ := except_bind_ok h
  obtain ⟨tags, h4, h⟩ := except_bind_ok h
  obtain ⟨actrJson, h5, h⟩ := except_bind_ok h
  obtain ⟨actrItems, h6, h⟩ := except_bind_ok h
  obtain ⟨performers, h7, h⟩ := except_bind_ok h
  obtain ⟨imageJson, h8, h⟩ := except_bind_ok h
  obtain ⟨imageRaw, h9, h⟩ := except_bind_ok h
  obtain ⟨title, h10, h⟩ := except_bind_ok h
  obtain ⟨date, h11, h⟩ := except_bind_ok h
  obtain ⟨writer, h12, h⟩ := except_bind_ok h
  obtain ⟨writerName, h13, h⟩ := except_bind_ok h
  obtain ⟨writerSlug, h14, h⟩ := except_bind_ok h
  obtain ⟨videoId, h15, h⟩ := except_bind_ok h
  exact ⟨article, tagsJson, tagItems, tags, actrJson, actrItems, performers,
    imageJson, imageRaw, title, date, writer, writerName, writerSlug, videoId,
    h1, h2, h3, h4, h5, h6, h7, h8, h9, h10, h11, h12, h13, h14, h15,
    (Except.ok.inj h).symm⟩

/-! ### Concrete witness data -/

/-- The article object of a fixed synthetic API response. -/
def articleObjW : Json :=
  .obj [("tags", .arr [.obj [("name", .str "tagA")]]),
        ("actresses", .arr [.obj [("name", .str "perfA"), ("id", .str "77")]]),
        ("image_url", .str "/img/abc.jpg"),
        ("title", .str "Title"),
        ("release_date", .str "2024-01-02"),
        ("writer", .obj [("name", .str "WriterName"), ("slug", .str "writer-slug")]),
        ("video_id", .str "12345")]

/-- A fixed synthetic API response, wrapping `articleObjW`. -/
def resultW : Json := .obj [("article", articleObjW)]

/-- The scene `export_scene` produces from `resultW`. -/
def sceneW : ScrapedScene :=
  { title := .str "Title", date := .str "2024-01-02",
    tags := [{ name := .str "tagA" }],
    performers := [{ name := .str "perfA",
                     urls := ["https://fc2ppvdb.com/actresses/77"] }],
    studio := { name := .str "WriterName",
                url := "https://fc2ppvdb.com/writers/writer-slug" },
    director := .str "WriterName",
    code := "FC2-PPV-12345",
    image := "https://fc2ppvdb.com/img/abc.jpg",
    url := "https://fc2ppvdb.com/articles/12345" }

example : export_scene resultW = .ok sceneW := rfl

/-- The same article object with the `writer` key removed. -/
def articleNoWriterW : Json :=
  .obj [("tags", .arr []),
        ("actresses", .arr []),
        ("image_url", .str "https://x/img.jpg"),
        ("title", .str "Title"),
        ("release_date", .str "2024-01-02"),
        ("video_id", .str "12345")]

/-- API response whose article object lacks `writer`. -/
def resultNoWriterW : Json := .obj [("article", articleNoWriterW)]

example : export_scene resultNoWriterW = .error (.keyError "writer") := rfl

/-! ### Claim theorems for the session store and pipeline -/

/-- Claim C1 (code bug in the source): with no session cookie in the
jar, `write_cookie` does not serialize an empty string gracefully:
`get_dict().get` returns `None` without raising, the bare-`except`
fallback to `""` never runs, and `f.write(None)` dies with an
uncaught `TypeError` after `open(..., "w")` has truncated the file. -/
theorem write_cookie_missing_cookie_crash :
    write_cookie [] (.present "stale") =
      { file := .present "", crashed := true, errors := [] } := rfl

/-- Claim C7: the mapped scene's image is the raw `image_url` when it
already starts with the secure scheme (the source tests the prefix
`https`, hence in particular any `https://` URL is kept verbatim),
and is prefixed with the base site URL otherwise. -/
theorem export_scene_image_normalization (j article : Json) (s : String)
    (scene : ScrapedScene)
    (hok : export_scene j = .ok scene)
    (hart : getKey j "article" = .ok article)
    (himg : getKey article "image_url" = .ok (.str s)) :
    (pyStartsWith s "https" = false → scene.image = BASE_QUERY_URL ++ s) ∧
    (pyStartsWith s "https://" = true → scene.image = s) := by
  obtain ⟨article', tagsJson, tagItems, tags, actrJson, actrItems, performers,
    imageJson, imageRaw, title, date, writer, writerName, writerSlug, videoId,
    h1, h2, h3, h4, h5, h6, h7, h8, h9, h10, h11, h12, h13, h14, h15, hs⟩ :=
    export_scene_ok_inv hok
  have hart' : article' = article := Except.ok.inj (h1.symm.trans hart)
  subst hart'
  have himgJ : imageJson = .str s := Except.ok.inj (h8.symm.trans himg)
  subst himgJ
  have hraw : imageRaw = s := Except.ok.inj h9.symm
  subst hraw
  subst hs
  constructor
  · intro hfalse
    simp [hfalse]
  · intro htrue
    simp [pyStartsWith_https htrue]

/-- Witness for C7: a host-relative `image_url` gets the base URL
prepended. -/
theorem export_scene_image_normalization_witness :
    pyStartsWith "/img/abc.jpg" "https" = false ∧
    sceneW.image = BASE_QUERY_URL ++ "/img/abc.jpg" :=
  ⟨by decide,
   (export_scene_image_normalization resultW articleObjW "/img/abc.jpg" sceneW
      rfl rfl rfl).1 (by decide)⟩

/-- Claim C8: the mapped scene's code is the literal prefix
`FC2-PPV-` followed by the article object's `video_id` (the scene is
built from the API response alone, so the caller-supplied identifier
cannot enter the code). -/
theorem export_scene_code_format (j article : Json) (v : String)
    (scene : ScrapedScene)
    (hok : export_scene j = .ok scene)
    (hart : getKey j "article" = .ok article)
    (hvid : getKey article "video_id" = .ok (.str v)) :
    scene.code = "FC2-PPV-" ++ v := by
  obtain ⟨article', tagsJson, tagItems, tags, actrJson, actrItems, performers,
    imageJson, imageRaw, title, date, writer, writerName, writerSlug, videoId,
    h1, h2, h3, h4, h5, h6, h7, h8, h9, h10, h11, h12, h13, h14, h15, hs⟩ :=
    export_scene_ok_inv hok
  have hart' : article' = article := Except.ok.inj (h1.symm.trans hart)
  subst hart'
  have hvidJ : videoId = .str v := Except.ok.inj (h15.symm.trans hvid)
  subst hvidJ
  subst hs
  rfl

/-- Witness for C8: `video_id = "12345"` yields `FC2-PPV-12345`. -/
theorem export_scene_code_format_witness :
    sceneW.code = "FC2-PPV-" ++ "12345" :=
  export_scene_code_format resultW articleObjW "12345" sceneW rfl rfl rfl

/-- Claim C9: when the article JSON lacks an expected key, the run
fails with the export error message naming exactly that key (distinct
from the network-failure messages `Failed to request article page` /
`Failed to request article info` and the parse message `Failed to
decode article info`), and no scene is emitted. -/
theorem send_request_missing_field (env : Env) (c : String) (page : PageResp)
    (api : ApiResp) (j : Json) (k : String)
    (hf : env.file = .present c) (hc : c ≠ "")
    (hp : env.pageResp = some page) (hcsrf : page.csrf.isSome = true)
    (ha : env.apiResp = some api) (hj : api.json = some j)
    (hexp : export_scene j = .error (.keyError k)) :
    (send_request env).scene = none ∧
    (send_request env).exitCode = 1 ∧
    (send_request env).errors =
      ["Failed to export article info, reason: " ++ "'" ++ k ++ "'"
        ++ " cannot be found"] := by
  obtain ⟨t, ht⟩ := Option.isSome_iff_exists.mp hcsrf
  have hjar1 : (getJar [("fc2ppvdb_session", c)] "fc2ppvdb_session").isSome
      = true := by simp [getJar, List.lookup]
  have hjar3 : (getJar
      (applyCookies (applyCookies [("fc2ppvdb_session", c)] page.setCookies)
        api.setCookies) "fc2ppvdb_session").isSome = true :=
    getJar_applyCookies_isSome _ _ (getJar_applyCookies_isSome _ _ hjar1)
  obtain ⟨c', hw⟩ := write_cookie_present_of_isSome (c := c) hjar3
  simp [send_request, hf, read_cookie_present hc, hp, ht, ha, hj, hexp, hw]

/-- Witness for C9: the synthetic response lacking `writer` produces
the export failure naming `writer`. -/
theorem send_request_missing_field_witness :
    (send_request { file := .present "tok",
                    pageResp := some { setCookies := [], csrf := some "csrftok" },
                    apiResp := some { setCookies := [],
                                      json := some resultNoWriterW } }).scene
      = none ∧
    (send_request { file := .present "tok",
                    pageResp := some { setCookies := [], csrf := some "csrftok" },
                    apiResp := some { setCookies := [],
                                      json := some resultNoWriterW } }).exitCode
      = 1 ∧
    (send_request { file := .present "tok",
                    pageResp := some { setCookies := [], csrf := some "csrftok" },
                    apiResp := some { setCookies := [],
                                      json := some resultNoWriterW } }).errors
      = ["Failed to export article info, reason: " ++ "'" ++ "writer" ++ "'"
          ++ " cannot be found"] :=
  send_request_missing_field _ "tok" _ _ resultNoWriterW "writer"
    rfl (by decide) rfl rfl rfl rfl rfl

/-- Claim C5: once the session cookie has been read successfully,
every fatal path (page fetch, CSRF scrape, API fetch, JSON decode,
mapping) performs exactly one session-store write and exits non-zero,
and the success path also writes exactly once. -/
theorem send_request_write_once (env : Env) (c : String)
    (hf : env.file = .present c) (hc : c ≠ "") :
    (env.pageResp = none →
      (send_request env).writes = 1 ∧ (send_request env).exitCode = 1 ∧
      (send_request env).scene = none) ∧
    (∀ page, env.pageResp = some page → page.csrf = none →
      (send_request env).writes = 1 ∧ (send_request env).exitCode = 1 ∧
      (send_request env).scene = none) ∧
    (∀ page, env.pageResp = some page → page.csrf.isSome = true →
      env.apiResp = none →
      (send_request env).writes = 1 ∧ (send_request env).exitCode = 1 ∧
      (send_request env).scene = none) ∧
    (∀ page api, env.pageResp = some page → page.csrf.isSome = true →
      env.apiResp = some api → api.json = none →
      (send_request env).writes = 1 ∧ (send_request env).exitCode = 1 ∧
      (send_request env).scene = none) ∧
    (∀ page api j k, env.pageResp = some page → page.csrf.isSome = true →
      env.apiResp = some api → api.json = some j →
      export_scene j = .error (.keyError k) →
      (send_request env).writes = 1 ∧ (send_request env).exitCode = 1 ∧
      (send_request env).scene = none) ∧
    (∀ page api j scene, env.pageResp = some page → page.csrf.isSome = true →
      env.apiResp = some api → api.json = some j →
      export_scene j = .ok scene →
      (send_request env).writes = 1 ∧ (send_request env).exitCode = 0 ∧
      (send_request env).scene = some scene) := by
  have hjar1 : (getJar [("fc2ppvdb_session", c)] "fc2ppvdb_session").isSome
      = true := by simp [getJar, List.lookup]
  refine ⟨?_, ?_, ?_, ?_, ?_, ?_⟩
  · intro h
    simp [send_request, hf, read_cookie_present hc, h]
  · intro page hp hcsrf
    simp [send_request, hf, read_cookie_present hc, hp, hcsrf]
  · intro page hp hcsrf ha
    obtain ⟨t, ht⟩ := Option.isSome_iff_exists.mp hcsrf
    simp [send_request, hf, read_cookie_present hc, hp, ht, ha]
  · intro page api hp hcsrf ha hj
    obtain ⟨t, ht⟩ := Option.isSome_iff_exists.mp hcsrf
    simp [send_request, hf, read_cookie_present hc, hp, ht, ha, hj]
  · intro page api j k hp hcsrf ha hj hexp
    obtain ⟨t, ht⟩ := Option.isSome_iff_exists.mp hcsrf
    simp [send_request, hf, read_cookie_present hc, hp, ht, ha, hj, hexp]
  · intro page api j scene hp hcsrf ha hj hexp
    obtain ⟨t, ht⟩ := Option.isSome_iff_exists.mp hcsrf
    have hjar3 : (getJar
        (applyCookies (applyCookies [("fc2ppvdb_session", c)] page.setCookies)
          api.setCookies) "fc2ppvdb_session").isSome = true :=
      getJar_applyCookies_isSome _ _ (getJar_applyCookies_isSome _ _ hjar1)
    obtain ⟨c', hw⟩ := write_cookie_present_of_isSome (c := c) hjar3
    simp [send_request, hf, read_cookie_present hc, hp, ht, ha, hj, hexp, hw]

/-- Witness for C5: a page-fetch failure writes the store once and
exits non-zero. -/
theorem send_request_write_once_witness :
    (send_request { file := .present "tok", pageResp := none,
                    apiResp := none }).writes = 1 ∧
    (send_request { file := .present "tok", pageResp := none,
                    apiResp := none }).exitCode = 1 ∧
    (send_request { file := .present "tok", pageResp := none,
                    apiResp := none }).scene = none :=
  (send_request_write_once _ "tok" rfl (by decide)).1 rfl

/-- Claim C2 (amended): when the session cookie file is absent or
empty, `read_cookie` returns false, the run exits non-zero before any
network call, and an empty cookie file exists on storage at exit.
(An unreadable file also aborts the run before any network call, but
is left unchanged, so no empty placeholder can be guaranteed there;
see the counterexample.) -/
theorem mainRun_read_failure (op : String) (f : Fragment) (env : Env)
    (v : String)
    (hop : op = "scene-by-fragment" ∨ op = "scene-by-url")
    (hid : extract_id f = some v) (hv : v ≠ "")
    (hfile : env.file = .absent ∨ env.file = .present "") :
    (read_cookie env.file []).1 = false ∧
    (mainRun op f env).exitCode = 1 ∧
    (mainRun op f env).netCalls = 0 ∧
    (mainRun op f env).file = .present "" ∧
    (mainRun op f env).scene = none := by
  rcases hfile with h | h <;>
    simp [mainRun, if_pos hop, hid, hv, send_request, h, read_cookie,
      write_cookie, getJar, List.lookup]

/-- Witness for C2's amended theorem: absent cookie file. -/
theorem mainRun_read_failure_witness :
    (read_cookie (Env.mk .absent none none).file []).1 = false ∧
    (mainRun "scene-by-url" ⟨some "x/articles/12345", none, none, []⟩
      (Env.mk .absent none none)).exitCode = 1 ∧
    (mainRun "scene-by-url" ⟨some "x/articles/12345", none, none, []⟩
      (Env.mk .absent none none)).netCalls = 0 ∧
    (mainRun "scene-by-url" ⟨some "x/articles/12345", none, none, []⟩
      (Env.mk .absent none none)).file = .present "" ∧
    (mainRun "scene-by-url" ⟨some "x/articles/12345", none, none, []⟩
      (Env.mk .absent none none)).scene = none :=
  mainRun_read_failure "scene-by-url" _ _ "12345" (Or.inr rfl) (by decide)
    (by decide) (Or.inl rfl)

/-- Counterexample to Claim C2 as stated: with an unreadable (e.g.
permission-denied) cookie file of stale non-empty content, the run
still fails before any network call, but no empty placeholder cookie
file exists at exit — the file is left unchanged, because the
re-creating `open(..., "w")` raises `OSError` as well. -/
theorem mainRun_read_failure_cex :
    (mainRun "scene-by-url" ⟨some "x/articles/12345", none, none, []⟩
      (Env.mk (.unreadable "stale") none none)).netCalls = 0 ∧
    (mainRun "scene-by-url" ⟨some "x/articles/12345", none, none, []⟩
      (Env.mk (.unreadable "stale") none none)).exitCode = 1 ∧
    (mainRun "scene-by-url" ⟨some "x/articles/12345", none, none, []⟩
      (Env.mk (.unreadable "stale") none none)).file ≠ .present "" := by
  refine ⟨by decide, by decide, ?_⟩
  intro h
  exact CookieFile.noConfusion (h.symm.trans (by decide : (mainRun "scene-by-url"
    ⟨some "x/articles/12345", none, none, []⟩
    (Env.mk (.unreadable "stale") none none)).file = .unreadable "stale"))

/-- Claim C6: an unrecognized operation name, or a fragment from
which no identifier can be extracted, terminates the run non-zero
before any network call and before any session-state access. -/
theorem mainRun_fails_before_network (op : String) (f : Fragment) (env : Env) :
    (¬(op = "scene-by-fragment" ∨ op = "scene-by-url") →
      (mainRun op f env).exitCode = 1 ∧ (mainRun op f env).netCalls = 0 ∧
      (mainRun op f env).reads = 0 ∧ (mainRun op f env).writes = 0 ∧
      (mainRun op f env).file = env.file ∧ (mainRun op f env).scene = none) ∧
    (extract_id f = none →
      (mainRun op f env).exitCode = 1 ∧ (mainRun op f env).netCalls = 0 ∧
      (mainRun op f env).reads = 0 ∧ (mainRun op f env).writes = 0 ∧
      (mainRun op f env).file = env.file ∧ (mainRun op f env).scene = none) := by
  constructor
  · intro h
    simp [mainRun, h]
  · intro h
    by_cases hop : op = "scene-by-fragment" ∨ op = "scene-by-url" <;>
      simp [mainRun, hop, h]

/-- Witness for C6: an unknown operation name is rejected without any
network or session-state activity. -/
theorem mainRun_fails_before_network_witness :
    (mainRun "performer-by-name" ⟨none, none, none, []⟩
      (Env.mk .absent none none)).exitCode = 1 ∧
    (mainRun "performer-by-name" ⟨none, none, none, []⟩
      (Env.mk .absent none none)).netCalls = 0 ∧
    (mainRun "performer-by-name" ⟨none, none, none, []⟩
      (Env.mk .absent none none)).reads = 0 ∧
    (mainRun "performer-by-name" ⟨none, none, none, []⟩
      (Env.mk .absent none none)).writes = 0 ∧
    (mainRun "performer-by-name" ⟨none, none, none, []⟩
      (Env.mk .absent none none)).file = (Env.mk .absent none none).file ∧
    (mainRun "performer-by-name" ⟨none, none, none, []⟩
      (Env.mk .absent none none)).scene = none :=
  (mainRun_fails_before_network "performer-by-name" _ _).1 (by decide)
